import Mathlib

/-!
Verification development for the System-Wycen-AI-ML frontend
(`calculator.component.ts`, `offers-list.component.ts`, `auth.service.ts`).

Numbers are modelled exactly over `ℚ`; JavaScript `Math.round` is modelled as
round-half-towards-positive-infinity, which agrees with `Math.round` on the
values arising here.  The region lookup `regionMultipliers[region] || 1.0` is
performed on a plain object literal, which inherits from `Object.prototype`:
for region strings naming an inherited member (for example "toString") the
lookup yields a truthy non-numeric value, the falsy fallback does not fire,
and the subsequent multiplication produces NaN.  The non-numeric lookup
result and the NaN it turns into are both modelled as `none`; genuine
numbers are `some q`.  Other floating-point effects are outside the model.
-/

/-- Model of JavaScript `Math.round`: round half towards positive infinity. -/
def mathRound (q : ℚ) : ℤ := ⌊q + 1/2⌋

/-- Rounding to currency precision, `Math.round(price * 100) / 100`
(calculator.component.ts line 164). -/
def round2 (q : ℚ) : ℚ := (mathRound (q * 100) : ℚ) / 100

/-- The property names a plain JavaScript object literal inherits from
`Object.prototype`.  Indexing the region record with one of these strings
returns the inherited member (a function, or `Object.prototype` itself for
`__proto__`) — a truthy, non-numeric value. -/
def objectPrototypeKeys : List String :=
  ["constructor", "hasOwnProperty", "isPrototypeOf", "propertyIsEnumerable",
   "toLocaleString", "toString", "valueOf", "__proto__",
   "__defineGetter__", "__defineSetter__", "__lookupGetter__",
   "__lookupSetter__"]

/-- Value of the expression `regionMultipliers[values.region] || 1.0`
(calculator.component.ts lines 151-157).  The record literal holds
Mazowieckie ↦ 1.2, Śląskie ↦ 1.1, Małopolskie ↦ 1.05, Inne ↦ 1.0, all truthy
numbers.  For a string naming an inherited `Object.prototype` member the
lookup returns that truthy non-numeric member, so the `|| 1.0` fallback does
not fire: that outcome is `none`.  For any other absent key the lookup is
`undefined` (falsy) and the fallback yields 1.0. -/
def regionMultiplier (region : String) : Option ℚ :=
  if region = "Mazowieckie" then some (12/10)
  else if region = "Śląskie" then some (11/10)
  else if region = "Małopolskie" then some (105/100)
  else if region = "Inne" then some 1
  else if region ∈ objectPrototypeKeys then none
  else some 1

/-- Base price, `values.employees_count * 100` (calculator.component.ts line 140). -/
def basePrice (employees_count : ℕ) : ℚ := (employees_count : ℚ) * 100

/-- Quantity discount rate (calculator.component.ts lines 143-146):
`>200 → 0.15`, else `>50 → 0.10`, else `>10 → 0.05`, else `0`. -/
def discountRate (employees_count : ℕ) : ℚ :=
  if employees_count > 200 then 15/100
  else if employees_count > 50 then 10/100
  else if employees_count > 10 then 5/100
  else 0

/-- The premium factor as a multiplier: the source multiplies by `1.20` when
`values.premium_48h` is set (calculator.component.ts lines 160-162), else
leaves the price unchanged. -/
def premiumMultiplier (premium_48h : Bool) : ℚ :=
  if premium_48h then 120/100 else 1

/-- Local price estimation `calculateLocalEstimate`
(calculator.component.ts lines 139-165): base price, quantity discount,
region multiplier, premium surcharge, final rounding to 2 decimals.  When
the region lookup yields the non-numeric inherited member (`none`), the
multiplication produces NaN, which propagates unchanged through the premium
multiplication, `Math.round` and the final division, so the result is
NaN (`none`). -/
def calculateLocalEstimate (employees_count : ℕ) (region : String)
    (premium_48h : Bool) : Option ℚ :=
  let base : ℚ := (employees_count : ℚ) * 100
  let rate : ℚ :=
    if employees_count > 200 then 15/100
    else if employees_count > 50 then 10/100
    else if employees_count > 10 then 5/100
    else 0
  let price1 := base * (1 - rate)
  match regionMultiplier region with
  | none => none
  | some m =>
    let price2 := price1 * m
    let price3 := if premium_48h then price2 * (120/100) else price2
    some ((mathRound (price3 * 100) : ℚ) / 100)

/-- Priority tiers of an offer (`priority_level` in api.service.ts). -/
inductive PriorityTier where
  | LOW
  | STANDARD
  | VIP
  deriving DecidableEq

/-- Tier discount rate as the spec words it: VIP gets 5 percent off, applied
last; LOW and STANDARD get no tier discount.  This declaration follows the
spec, not the frontend source, and exists to be compared with
`calculateLocalEstimate`. -/
def tierDiscountRate : PriorityTier → ℚ
  | PriorityTier.VIP => 5/100
  | _ => 0

/-- Region multiplier as the spec words it (spec sections 4.1 and 4.5): the
fixed table value for known regions, and the designated fallback 1.0 for
every unknown region string.  This declaration follows the spec, not the
frontend source, and exists to be compared with the code's `regionMultiplier`
(which differs on inherited `Object.prototype` keys). -/
def specRegionMultiplier (region : String) : ℚ :=
  if region = "Mazowieckie" then 12/10
  else if region = "Śląskie" then 11/10
  else if region = "Małopolskie" then 105/100
  else if region = "Inne" then 1
  else 1

/-- Final price formula as the spec words it (spec section 4.5):
basePrice × (1 − volumeDiscountRate) × regionMultiplier × premiumMultiplier
× (1 − tierDiscountRate), rounded to 2 decimals at the very end.  This
declaration follows the spec, not the frontend source, and exists to be
compared with `calculateLocalEstimate`. -/
def specFinalPrice (employees_count : ℕ) (region : String) (premium_48h : Bool)
    (tier : PriorityTier) : ℚ :=
  round2 (basePrice employees_count * (1 - discountRate employees_count) *
    specRegionMultiplier region * premiumMultiplier premium_48h *
    (1 - tierDiscountRate tier))

/-- The local estimate factors, for every region string, as the map of the
product of the named steps over the region lookup: a non-numeric lookup gives
NaN, a numeric one gives the rounded product. -/
lemma calculateLocalEstimate_factors (employees_count : ℕ) (region : String)
    (premium_48h : Bool) :
    calculateLocalEstimate employees_count region premium_48h =
      (regionMultiplier region).map (fun m =>
        round2 (basePrice employees_count *
          (1 - discountRate employees_count) * m *
          premiumMultiplier premium_48h)) := by
  unfold calculateLocalEstimate round2 basePrice discountRate premiumMultiplier
  cases regionMultiplier region with
  | none => rfl
  | some m =>
    simp only [Option.map_some']
    cases premium_48h
    · simp only [Bool.false_eq_true, if_false]
      congr 3
      ring_nf
    · simp only [if_true]

/-- The spec-side region multiplier always takes one of the four table
values. -/
lemma specRegionMultiplier_cases (region : String) :
    specRegionMultiplier region = 12/10 ∨
      specRegionMultiplier region = 11/10 ∨
      specRegionMultiplier region = 105/100 ∨
      specRegionMultiplier region = 1 := by
  unfold specRegionMultiplier
  split_ifs <;> norm_num

/-- Away from the inherited `Object.prototype` keys, the code's region
lookup agrees with the spec-side multiplier. -/
lemma regionMultiplier_eq_of_not_proto (region : String)
    (hr : region ∉ objectPrototypeKeys) :
    regionMultiplier region = some (specRegionMultiplier region) := by
  unfold regionMultiplier specRegionMultiplier
  split_ifs <;> rfl

/-- On an inherited `Object.prototype` key, the code's region lookup yields
the non-numeric inherited member. -/
lemma regionMultiplier_eq_none_of_proto (region : String)
    (hmem : region ∈ objectPrototypeKeys) :
    regionMultiplier region = none := by
  have h1 : region ≠ "Mazowieckie" := by rintro rfl; revert hmem; decide
  have h2 : region ≠ "Śląskie" := by rintro rfl; revert hmem; decide
  have h3 : region ≠ "Małopolskie" := by rintro rfl; revert hmem; decide
  have h4 : region ≠ "Inne" := by rintro rfl; revert hmem; decide
  unfold regionMultiplier
  rw [if_neg h1, if_neg h2, if_neg h3, if_neg h4, if_pos hmem]

/-- Away from the inherited `Object.prototype` keys, the estimate is the
rounded product with the spec-side multiplier. -/
lemma estimate_some_of_not_proto (employees_count : ℕ) (region : String)
    (premium_48h : Bool) (hr : region ∉ objectPrototypeKeys) :
    calculateLocalEstimate employees_count region premium_48h =
      some (round2 (basePrice employees_count *
        (1 - discountRate employees_count) * specRegionMultiplier region *
        premiumMultiplier premium_48h)) := by
  rw [calculateLocalEstimate_factors, regionMultiplier_eq_of_not_proto region hr]
  rfl

/-- On an inherited `Object.prototype` key, the estimate is NaN. -/
lemma estimate_none_of_proto (employees_count : ℕ) (region : String)
    (premium_48h : Bool) (hmem : region ∈ objectPrototypeKeys) :
    calculateLocalEstimate employees_count region premium_48h = none := by
  rw [calculateLocalEstimate_factors, regionMultiplier_eq_none_of_proto region hmem]
  rfl

/-- Score class for styling, `getScoreClass`
(calculator.component.ts lines 206-210): `>= 70 → score-high`,
`>= 40 → score-medium`, else `score-low`. -/
def getScoreClass (score : ℚ) : String :=
  if score ≥ 70 then "score-high"
  else if score ≥ 40 then "score-medium"
  else "score-low"

/-- Score color, `getScoreColor` (offers-list.component.ts lines 174-178):
`>= 70 → green`, `>= 40 → orange`, else `red`. -/
def getScoreColor (score : ℚ) : String :=
  if score ≥ 70 then "#4caf50"
  else if score ≥ 40 then "#ff9800"
  else "#f44336"

/-- The `Offer` interface of api.service.ts. -/
structure Offer where
  id : ℤ
  company_id : ℤ
  employees_count : ℕ
  region : String
  premium_48h : Bool
  base_price : ℚ
  final_price : ℚ
  ai_score : ℚ
  ml_score : ℚ
  rule_score : ℚ
  priority_level : PriorityTier
  created_at : String
  deriving DecidableEq

/-- The `OfferCreate` interface of api.service.ts. -/
structure OfferCreate where
  company_id : ℤ
  employees_count : ℕ
  region : String
  premium_48h : Bool
  ml_feature_avg_order_value : ℚ
  ml_feature_offers_count : ℕ
  deriving DecidableEq

/-- The control keys of `pricingForm` (calculator.component.ts lines 61-68). -/
def formControlKeys : List String :=
  ["company_id", "employees_count", "region", "premium_48h",
   "ml_feature_avg_order_value", "ml_feature_offers_count"]

/-- State of `CalculatorComponent` observable from `calculate()`:
form validity and value, the set of touched controls, the shown result,
and the values emitted so far on `calculateSubject$` (each emission
triggers an API request through the calculate stream). -/
structure CalculatorState where
  formInvalid : Bool
  formValue : OfferCreate
  touchedControls : List String
  result : Option Offer
  emittedCalculations : List OfferCreate
  deriving DecidableEq

/-- The `calculate()` method (calculator.component.ts lines 191-201): when
the form is invalid, mark every control as touched and return; otherwise
emit the form value on `calculateSubject$`. -/
def calculate (s : CalculatorState) : CalculatorState :=
  if s.formInvalid then
    { s with touchedControls := formControlKeys }
  else
    { s with emittedCalculations := s.emittedCalculations ++ [s.formValue] }

/-- The stats fields set by `calculateStats` (offers-list.component.ts
lines 51-53). -/
structure OffersStats where
  totalOffers : ℕ
  avgAiScore : ℤ
  vipCount : ℕ
  deriving DecidableEq

/-- The `calculateStats` method (offers-list.component.ts lines 136-142):
`avgAiScore` is `Math.round(reduce(+ai_score, 0) / length)` when the list is
non-empty and `0` otherwise; `vipCount` counts VIP offers. -/
def calculateStats (offers : List Offer) : OffersStats :=
  { totalOffers := offers.length
    avgAiScore :=
      if offers.length > 0 then
        mathRound ((offers.foldl (fun sum o => sum + o.ai_score) 0) /
          (offers.length : ℚ))
      else 0
    vipCount :=
      (offers.filter (fun o => o.priority_level = PriorityTier.VIP)).length }

/-- The `User` interface of auth.service.ts; `expiresAt` is an optional
millisecond timestamp. -/
structure User where
  token : String
  email : Option String
  role : String
  expiresAt : Option ℕ
  deriving DecidableEq

/-- The `currentUser` entry of localStorage as `getStoredUser` observes it:
absent (`getItem` returns null), malformed (`JSON.parse` of the stored string
throws), or a value that parses to a `User` object. -/
inductive StoredCurrentUser where
  | absent
  | malformed
  | valid (u : User)
  deriving DecidableEq

/-- The `getStoredUser` method (auth.service.ts lines 54-72) together with
the storage it leaves behind, given the stored entry and the current time
`now` (`Date.now()`, milliseconds).  An absent entry returns null; a parse
failure is caught, clears storage and returns null; the expiry check
`if (user.expiresAt && Date.now() > user.expiresAt)` fires only when
`expiresAt` is a truthy number, i.e. present and nonzero. -/
def getStoredUser (stored : StoredCurrentUser) (now : ℕ) :
    Option User × StoredCurrentUser :=
  match stored with
  | StoredCurrentUser.absent => (none, StoredCurrentUser.absent)
  | StoredCurrentUser.malformed => (none, StoredCurrentUser.absent)
  | StoredCurrentUser.valid u =>
    match u.expiresAt with
    | none => (some u, StoredCurrentUser.valid u)
    | some e =>
      if e ≠ 0 ∧ now > e then (none, StoredCurrentUser.absent)
      else (some u, StoredCurrentUser.valid u)

/-- C1 counterexample: at employees_count = 250, region Mazowieckie,
premium set, the code returns 30600 while the claimed formula with the VIP
tier discount (5 percent off, applied last) gives 29070 — the local estimate
never applies a tier discount; and at the inherited `Object.prototype` key
region "toString" the code returns NaN rather than any value of the claimed
formula. -/
theorem C1_counterexample :
    calculateLocalEstimate 250 "Mazowieckie" true = some 30600 ∧
    specFinalPrice 250 "Mazowieckie" true PriorityTier.VIP = 29070 ∧
    calculateLocalEstimate 250 "Mazowieckie" true ≠
      some (specFinalPrice 250 "Mazowieckie" true PriorityTier.VIP) ∧
    calculateLocalEstimate 250 "toString" true = none := by
  have hc := estimate_some_of_not_proto 250 "Mazowieckie" true (by decide)
  refine ⟨?_, ?_, ?_, estimate_none_of_proto 250 "toString" true (by decide)⟩
  · rw [hc]
    norm_num [round2, basePrice, discountRate, premiumMultiplier,
      specRegionMultiplier, mathRound]
  · norm_num [specFinalPrice, round2, basePrice, discountRate,
      premiumMultiplier, specRegionMultiplier, tierDiscountRate, mathRound]
  · rw [hc]
    norm_num [specFinalPrice, round2, basePrice, discountRate,
      premiumMultiplier, specRegionMultiplier, tierDiscountRate, mathRound]

/-- C1 (amended): for every positive employees_count, premium flag, and
region string that is not an inherited `Object.prototype` property name,
`calculateLocalEstimate` returns
round2(basePrice × (1 − volumeDiscountRate) × regionMultiplier ×
premiumMultiplier × (1 − 0)) — the factors are applied in the order
volume → region → premium, the result is rounded to 2 decimals only at the
very end, and no tier discount is applied: the result agrees with the spec
formula exactly for the tiers whose tier discount is zero (LOW/STANDARD),
never with the VIP factor.  (At `Object.prototype`-key regions the result is
NaN, per the counterexample.) -/
theorem C1_estimate_formula (employees_count : ℕ) (region : String)
    (premium_48h : Bool) (h : 0 < employees_count)
    (hr : region ∉ objectPrototypeKeys) :
    calculateLocalEstimate employees_count region premium_48h =
      some (round2 (basePrice employees_count *
        (1 - discountRate employees_count) * specRegionMultiplier region *
        premiumMultiplier premium_48h * (1 - 0))) ∧
    ∀ tier : PriorityTier, tier ≠ PriorityTier.VIP →
      calculateLocalEstimate employees_count region premium_48h =
        some (specFinalPrice employees_count region premium_48h tier) := by
  constructor
  · rw [estimate_some_of_not_proto employees_count region premium_48h hr]
    norm_num
  · intro tier ht
    rw [estimate_some_of_not_proto employees_count region premium_48h hr]
    unfold specFinalPrice
    cases tier with
    | LOW => norm_num [tierDiscountRate]
    | STANDARD => norm_num [tierDiscountRate]
    | VIP => exact absurd rfl ht

/-- C1 witness: the amended claim at employees_count = 250, Mazowieckie,
premium set, LOW tier. -/
theorem C1_estimate_formula_witness :
    calculateLocalEstimate 250 "Mazowieckie" true =
      some (specFinalPrice 250 "Mazowieckie" true PriorityTier.LOW) :=
  (C1_estimate_formula 250 "Mazowieckie" true (by norm_num) (by decide)).2
    PriorityTier.LOW (by simp)

/-- C2 counterexample: a score of exactly 40 is classified medium (orange),
not low, and a score of exactly 70 is classified high (green), not medium —
the code uses closed lower bounds, so the claimed boundary mapping
(40 → LOW, 70 → STANDARD) fails. -/
theorem C2_counterexample :
    getScoreClass 40 = "score-medium" ∧ getScoreClass 40 ≠ "score-low" ∧
    getScoreClass 70 = "score-high" ∧ getScoreClass 70 ≠ "score-medium" ∧
    getScoreColor 40 = "#ff9800" ∧ getScoreColor 40 ≠ "#f44336" ∧
    getScoreColor 70 = "#4caf50" ∧ getScoreColor 70 ≠ "#ff9800" := by
  decide

/-- C2 (amended): `getScoreClass` and `getScoreColor` realize a total,
non-overlapping partition of [0,100] with closed lower bounds:
[0,40) → low/red, [40,70) → medium/orange, [70,100] → high/green; a score of
exactly 40 is medium and a score of exactly 70 is high. -/
theorem C2_partition (score : ℚ) (h0 : 0 ≤ score) (h100 : score ≤ 100) :
    (score < 40 →
      getScoreClass score = "score-low" ∧ getScoreColor score = "#f44336") ∧
    (40 ≤ score → score < 70 →
      getScoreClass score = "score-medium" ∧
      getScoreColor score = "#ff9800") ∧
    (70 ≤ score →
      getScoreClass score = "score-high" ∧ getScoreColor score = "#4caf50") ∧
    (getScoreClass score = "score-low" ∨
      getScoreClass score = "score-medium" ∨
      getScoreClass score = "score-high") := by
  unfold getScoreClass getScoreColor
  split_ifs with h1 h2
  · exact ⟨fun h => absurd h (by linarith), fun _ h => absurd h (by linarith),
      fun _ => ⟨rfl, rfl⟩, Or.inr (Or.inr rfl)⟩
  · exact ⟨fun h => absurd h (by linarith), fun _ _ => ⟨rfl, rfl⟩,
      fun h => absurd h h1, Or.inr (Or.inl rfl)⟩
  · exact ⟨fun _ => ⟨rfl, rfl⟩, fun h _ => absurd h h2,
      fun h => absurd h h1, Or.inl rfl⟩

/-- C2 witness: the amended boundary behaviour at score = 40. -/
theorem C2_partition_witness :
    getScoreClass 40 = "score-medium" ∧ getScoreColor 40 = "#ff9800" :=
  (C2_partition 40 (by norm_num) (by norm_num)).2.1 (le_refl 40) (by norm_num)

/-- C3: the volume discount rate depends on employees_count alone, with
mutually exclusive tiers evaluated highest-threshold-first
(>200 → 15 percent, >50 → 10 percent, >10 → 5 percent, else 0), and it is
applied to basePrice before the region, premium and rounding steps — for
every region string the estimate is the region lookup mapped over the
rounded product whose first factor is the volume-discounted base price. -/
theorem C3_volume_discount (employees_count : ℕ) :
    (200 < employees_count → discountRate employees_count = 15/100) ∧
    (50 < employees_count → employees_count ≤ 200 →
      discountRate employees_count = 10/100) ∧
    (10 < employees_count → employees_count ≤ 50 →
      discountRate employees_count = 5/100) ∧
    (employees_count ≤ 10 → discountRate employees_count = 0) ∧
    ∀ (region : String) (premium_48h : Bool),
      calculateLocalEstimate employees_count region premium_48h =
        (regionMultiplier region).map (fun m =>
          round2 (basePrice employees_count *
            (1 - discountRate employees_count) * m *
            premiumMultiplier premium_48h)) := by
  refine ⟨?_, ?_, ?_, ?_, fun region premium_48h =>
    calculateLocalEstimate_factors employees_count region premium_48h⟩
  · intro h
    simp only [discountRate]
    rw [if_pos h]
  · intro h h2
    simp only [discountRate]
    rw [if_neg (by omega), if_pos h]
  · intro h h2
    simp only [discountRate]
    rw [if_neg (by omega), if_neg (by omega), if_pos h]
  · intro h
    simp only [discountRate]
    rw [if_neg (by omega), if_neg (by omega), if_neg (by omega)]

/-- C3 witness: the tier boundaries at concrete counts 5, 25, 60 and 250. -/
theorem C3_volume_discount_witness :
    discountRate 250 = 15/100 ∧ discountRate 60 = 10/100 ∧
    discountRate 25 = 5/100 ∧ discountRate 5 = 0 :=
  ⟨(C3_volume_discount 250).1 (by norm_num),
   (C3_volume_discount 60).2.1 (by norm_num) (by norm_num),
   (C3_volume_discount 25).2.2.1 (by norm_num) (by norm_num),
   (C3_volume_discount 5).2.2.2.1 (by norm_num)⟩

/-- C4 counterexample: at region "toString" (an inherited
`Object.prototype` key) the estimates at 9 and 11 employees are NaN, so
there are no unit prices and the claimed strict decrease fails at this
region. -/
theorem C4_counterexample :
    calculateLocalEstimate 9 "toString" false = none ∧
    calculateLocalEstimate 11 "toString" false = none :=
  ⟨estimate_none_of_proto 9 "toString" false (by decide),
   estimate_none_of_proto 11 "toString" false (by decide)⟩

/-- C4 (amended): with region and premium held fixed, for every region
string that is not an inherited `Object.prototype` property name, crossing
each volume-discount threshold strictly decreases the per-employee price:
9 → 11, 49 → 51 and 199 → 201 each produce numeric estimates and lower
finalPrice divided by employees_count.  (At `Object.prototype`-key regions
the estimates are NaN and no decrease holds, per the counterexample.) -/
theorem C4_unit_price_monotonic (region : String) (premium_48h : Bool)
    (hr : region ∉ objectPrototypeKeys) :
    calculateLocalEstimate 9 region premium_48h ≠ none ∧
    calculateLocalEstimate 11 region premium_48h ≠ none ∧
    calculateLocalEstimate 49 region premium_48h ≠ none ∧
    calculateLocalEstimate 51 region premium_48h ≠ none ∧
    calculateLocalEstimate 199 region premium_48h ≠ none ∧
    calculateLocalEstimate 201 region premium_48h ≠ none ∧
    (calculateLocalEstimate 11 region premium_48h).getD 0 / 11 <
      (calculateLocalEstimate 9 region premium_48h).getD 0 / 9 ∧
    (calculateLocalEstimate 51 region premium_48h).getD 0 / 51 <
      (calculateLocalEstimate 49 region premium_48h).getD 0 / 49 ∧
    (calculateLocalEstimate 201 region premium_48h).getD 0 / 201 <
      (calculateLocalEstimate 199 region premium_48h).getD 0 / 199 := by
  have h9 := estimate_some_of_not_proto 9 region premium_48h hr
  have h11 := estimate_some_of_not_proto 11 region premium_48h hr
  have h49 := estimate_some_of_not_proto 49 region premium_48h hr
  have h51 := estimate_some_of_not_proto 51 region premium_48h hr
  have h199 := estimate_some_of_not_proto 199 region premium_48h hr
  have h201 := estimate_some_of_not_proto 201 region premium_48h hr
  rw [h9, h11, h49, h51, h199, h201]
  refine ⟨by simp, by simp, by simp, by simp, by simp, by simp, ?_, ?_, ?_⟩
  all_goals
    simp only [Option.getD_some]
    rcases specRegionMultiplier_cases region with h | h | h | h <;> rw [h] <;>
      cases premium_48h <;>
        norm_num [round2, basePrice, discountRate, premiumMultiplier,
          mathRound]

/-- C4 witness: the amended claim at the fallback region "Inne" without
premium. -/
theorem C4_unit_price_monotonic_witness :
    calculateLocalEstimate 9 "Inne" false ≠ none ∧
    calculateLocalEstimate 11 "Inne" false ≠ none ∧
    calculateLocalEstimate 49 "Inne" false ≠ none ∧
    calculateLocalEstimate 51 "Inne" false ≠ none ∧
    calculateLocalEstimate 199 "Inne" false ≠ none ∧
    calculateLocalEstimate 201 "Inne" false ≠ none ∧
    (calculateLocalEstimate 11 "Inne" false).getD 0 / 11 <
      (calculateLocalEstimate 9 "Inne" false).getD 0 / 9 ∧
    (calculateLocalEstimate 51 "Inne" false).getD 0 / 51 <
      (calculateLocalEstimate 49 "Inne" false).getD 0 / 49 ∧
    (calculateLocalEstimate 201 "Inne" false).getD 0 / 201 <
      (calculateLocalEstimate 199 "Inne" false).getD 0 / 199 :=
  C4_unit_price_monotonic "Inne" false (by decide)

/-- C5 counterexample: for the region string "toString" — outside the
mapping table — the lookup returns the inherited truthy
`Object.prototype.toString` member, not the fallback multiplier 1.0, and the
computed price is NaN rather than a number. -/
theorem C5_counterexample :
    regionMultiplier "toString" = none ∧
    regionMultiplier "toString" ≠ some 1 ∧
    calculateLocalEstimate 100 "toString" false = none := by
  have hn := regionMultiplier_eq_none_of_proto "toString" (by decide)
  exact ⟨hn, by rw [hn]; simp,
    estimate_none_of_proto 100 "toString" false (by decide)⟩

/-- C5 (amended): each of the four table regions uses its table multiplier;
every region string outside the table that is not an inherited
`Object.prototype` property name falls back to multiplier 1.0; for the
inherited `Object.prototype` property names the fallback is bypassed — the
lookup yields the truthy non-numeric inherited member and the price becomes
NaN. -/
theorem C5_region_total :
    (regionMultiplier "Mazowieckie" = some (12/10) ∧
      regionMultiplier "Śląskie" = some (11/10) ∧
      regionMultiplier "Małopolskie" = some (105/100) ∧
      regionMultiplier "Inne" = some 1) ∧
    (∀ region : String,
      region ∉ (["Mazowieckie", "Śląskie", "Małopolskie", "Inne"] :
        List String) → region ∉ objectPrototypeKeys →
      regionMultiplier region = some 1) ∧
    (∀ region ∈ objectPrototypeKeys,
      regionMultiplier region = none ∧
      ∀ (employees_count : ℕ) (premium_48h : Bool),
        calculateLocalEstimate employees_count region premium_48h = none) := by
  refine ⟨⟨?_, ?_, ?_, ?_⟩, ?_, ?_⟩
  · norm_num [regionMultiplier]
  · unfold regionMultiplier
    rw [if_neg (by decide), if_pos rfl]
  · unfold regionMultiplier
    rw [if_neg (by decide), if_neg (by decide), if_pos rfl]
  · unfold regionMultiplier
    rw [if_neg (by decide), if_neg (by decide), if_neg (by decide),
      if_pos rfl]
  · intro region h hp
    simp only [List.mem_cons, List.not_mem_nil, or_false, not_or] at h
    obtain ⟨h1, h2, h3, h4⟩ := h
    unfold regionMultiplier
    rw [if_neg h1, if_neg h2, if_neg h3, if_neg h4, if_neg hp]
  · intro region hmem
    exact ⟨regionMultiplier_eq_none_of_proto region hmem,
      fun employees_count premium_48h =>
        estimate_none_of_proto employees_count region premium_48h hmem⟩

/-- C5 witness: a region string outside both the table and the prototype
keys gets the fallback multiplier 1. -/
theorem C5_region_total_witness : regionMultiplier "Podlaskie" = some 1 :=
  C5_region_total.2.1 "Podlaskie" (by decide) (by decide)

/-- C6: the base price equals employees_count × 100 (the fixed unit rate),
and for every region string it is the first factor of the rounded product
the discounts and multipliers are applied to (mapped over the region
lookup). -/
theorem C6_base_price (employees_count : ℕ) (region : String)
    (premium_48h : Bool) :
    basePrice employees_count = (employees_count : ℚ) * 100 ∧
    calculateLocalEstimate employees_count region premium_48h =
      (regionMultiplier region).map (fun m =>
        round2 (((employees_count : ℚ) * 100) *
          (1 - discountRate employees_count) * m *
          premiumMultiplier premium_48h)) :=
  ⟨rfl, calculateLocalEstimate_factors employees_count region premium_48h⟩

/-- C7: the local estimate is deterministic — it is a pure function of
(employees_count, region, premium_48h); two invocations on equal arguments
return identical results, with no hidden state in the model (the source
method reads only its argument and fixed literals). -/
theorem C7_deterministic (e1 e2 : ℕ) (r1 r2 : String) (p1 p2 : Bool)
    (he : e1 = e2) (hr : r1 = r2) (hp : p1 = p2) :
    calculateLocalEstimate e1 r1 p1 = calculateLocalEstimate e2 r2 p2 := by
  subst he
  subst hr
  subst hp
  rfl

/-- C7 witness: two invocations at a concrete input agree. -/
theorem C7_deterministic_witness :
    calculateLocalEstimate 100 "Mazowieckie" false =
      calculateLocalEstimate 100 "Mazowieckie" false :=
  C7_deterministic 100 100 "Mazowieckie" "Mazowieckie" false false
    rfl rfl rfl

/-- C8: when the pricing form is invalid, `calculate()` performs no offer
calculation — nothing is emitted on the calculation stream, the shown result
and the form value are unchanged, and every control is marked touched. -/
theorem C8_invalid_no_calculation (s : CalculatorState)
    (h : s.formInvalid = true) :
    (calculate s).emittedCalculations = s.emittedCalculations ∧
    (calculate s).result = s.result ∧
    (calculate s).formValue = s.formValue ∧
    (calculate s).touchedControls = formControlKeys := by
  unfold calculate
  rw [h]
  exact ⟨rfl, rfl, rfl, rfl⟩

/-- A concrete form value for the calculator-state witnesses. -/
def sampleOfferCreate : OfferCreate :=
  { company_id := 1
    employees_count := 100
    region := "Mazowieckie"
    premium_48h := false
    ml_feature_avg_order_value := 20000
    ml_feature_offers_count := 0 }

/-- A concrete calculator state whose form is invalid. -/
def sampleInvalidState : CalculatorState :=
  { formInvalid := true
    formValue := sampleOfferCreate
    touchedControls := []
    result := none
    emittedCalculations := [] }

/-- C8 witness: on a concrete invalid state, `calculate()` emits nothing and
keeps the result. -/
theorem C8_invalid_no_calculation_witness :
    (calculate sampleInvalidState).emittedCalculations = [] ∧
    (calculate sampleInvalidState).result = none :=
  ⟨(C8_invalid_no_calculation sampleInvalidState rfl).1,
   (C8_invalid_no_calculation sampleInvalidState rfl).2.1⟩

/-- C9: `calculateStats` never divides by zero — the empty offer list yields
average score 0, and a non-empty list yields the rounded mean of the offers'
ai_score values. -/
theorem C9_avg_score_safe :
    (calculateStats []).avgAiScore = 0 ∧
    ∀ offers : List Offer, offers ≠ [] →
      (calculateStats offers).avgAiScore =
        mathRound ((offers.map Offer.ai_score).sum /
          (offers.length : ℚ)) := by
  constructor
  · rfl
  · intro offers h
    have hlen : 0 < offers.length := List.length_pos.mpr h
    simp only [calculateStats, gt_iff_lt, if_pos hlen]
    congr 1
    rw [List.sum_eq_foldl, List.foldl_map]

/-- A concrete offer for the stats witness. -/
def sampleOffer : Offer :=
  { id := 1
    company_id := 1
    employees_count := 100
    region := "Mazowieckie"
    premium_48h := false
    base_price := 10000
    final_price := 12000
    ai_score := 80
    ml_score := 80
    rule_score := 35
    priority_level := PriorityTier.STANDARD
    created_at := "2024-01-01" }

/-- C9 witness: the empty case and a concrete singleton list. -/
theorem C9_avg_score_safe_witness :
    (calculateStats []).avgAiScore = 0 ∧
    (calculateStats [sampleOffer]).avgAiScore =
      mathRound (([sampleOffer].map Offer.ai_score).sum /
        (([sampleOffer] : List Offer).length : ℚ)) :=
  ⟨C9_avg_score_safe.1, C9_avg_score_safe.2 [sampleOffer] (by simp)⟩

/-- A stored user whose expiresAt is exactly 0 (the Unix epoch). -/
def zeroExpiryUser : User :=
  { token := "token", email := none, role := "user", expiresAt := some 0 }

/-- C10 counterexample: a stored user carrying expiresAt = 0, read at time
1, is returned even though its expiry is present and earlier than the current
time — the JavaScript truthiness guard `user.expiresAt && ...` skips the
expiry check when expiresAt is 0, so the claim fails at this input. -/
theorem C10_counterexample :
    (getStoredUser (StoredCurrentUser.valid zeroExpiryUser) 1).1 =
      some zeroExpiryUser ∧
    zeroExpiryUser.expiresAt = some 0 ∧ (0 : ℕ) < 1 := by
  decide

/-- C10 (amended): `getStoredUser` never throws — it always returns either
null or the stored user; an absent or unparsable entry yields null (the
latter clearing storage); a stored user with a present, nonzero expiresAt
earlier than now yields null and clears storage; a user whose expiresAt is
absent, or not earlier than now, is returned.  An expiresAt of exactly 0 is
falsy in JavaScript, so its expiry check is skipped and the user is
returned. -/
theorem C10_getStoredUser_total (stored : StoredCurrentUser) (now : ℕ) :
    (getStoredUser stored now = (none, StoredCurrentUser.absent) ∨
      ∃ u, stored = StoredCurrentUser.valid u ∧
        getStoredUser stored now = (some u, stored)) ∧
    (stored = StoredCurrentUser.absent ∨
        stored = StoredCurrentUser.malformed →
      getStoredUser stored now = (none, StoredCurrentUser.absent)) ∧
    (∀ u, stored = StoredCurrentUser.valid u → u.expiresAt = none →
      getStoredUser stored now = (some u, stored)) ∧
    (∀ u e, stored = StoredCurrentUser.valid u → u.expiresAt = some e →
      e ≠ 0 → e < now →
      getStoredUser stored now = (none, StoredCurrentUser.absent)) ∧
    (∀ u e, stored = StoredCurrentUser.valid u → u.expiresAt = some e →
      now ≤ e → getStoredUser stored now = (some u, stored)) := by
  cases stored with
  | absent =>
    refine ⟨Or.inl rfl, fun _ => rfl, ?_, ?_, ?_⟩ <;> intros <;> simp_all
  | malformed =>
    refine ⟨Or.inl rfl, fun _ => rfl, ?_, ?_, ?_⟩ <;> intros <;> simp_all
  | valid u =>
    refine ⟨?_, ?_, ?_, ?_, ?_⟩
    · cases hu : u.expiresAt with
      | none => exact Or.inr ⟨u, rfl, by simp [getStoredUser, hu]⟩
      | some e =>
        by_cases hc : e ≠ 0 ∧ now > e
        · exact Or.inl (by simp [getStoredUser, hu, if_pos hc])
        · exact Or.inr ⟨u, rfl, by simp [getStoredUser, hu, if_neg hc]⟩
    · intro h
      rcases h with h | h <;> simp_all
    · intro v hv hexp
      injection hv with hv
      subst hv
      simp [getStoredUser, hexp]
    · intro v e hv hexp hne hlt
      injection hv with hv
      subst hv
      simp only [getStoredUser, hexp]
      rw [if_pos ⟨hne, hlt⟩]
    · intro v e hv hexp hle
      injection hv with hv
      subst hv
      simp only [getStoredUser, hexp]
      rw [if_neg (by omega)]

/-- A stored user expired at time 3 for the C10 witness. -/
def expiredUser : User :=
  { token := "token2", email := none, role := "user", expiresAt := some 3 }

/-- C10 witness: a user with nonzero expiry 3 read at time 5 yields null and
clears storage; a malformed entry yields null and clears storage. -/
theorem C10_getStoredUser_total_witness :
    getStoredUser (StoredCurrentUser.valid expiredUser) 5 =
      (none, StoredCurrentUser.absent) ∧
    getStoredUser StoredCurrentUser.malformed 5 =
      (none, StoredCurrentUser.absent) :=
  ⟨(C10_getStoredUser_total (StoredCurrentUser.valid expiredUser) 5).2.2.2.1
      expiredUser 3 rfl rfl (by decide) (by decide),
   (C10_getStoredUser_total StoredCurrentUser.malformed 5).2.1 (Or.inr rfl)⟩
